import Mathlib

/-!
Verification development for the maverick prediction-tracking system.

The definitions below are a shallow embedding of the Python sources:
kelly.py (position sizing and payout arithmetic) and src/db.py,
src/models.py, src/analytics.py (persistence layer and analytics).
Python floats are modelled as rational numbers, SQL tables as lists of
row records, and the scoped transaction of get_connection as an atomic
state transition that returns the unchanged state on error (commit on
success, rollback on exception).
-/

namespace Maverick

/-! ## Kelly sizing calculator (kelly.py) -/

/-- Result record of the Kelly calculation, mirroring the KellyResult
dataclass in kelly.py. -/
structure KellyResult where
  direction : String
  edge : ℚ
  full_kelly : ℚ
  recommended : ℚ
  our_prob : ℚ
  market_prob : ℚ
  confidence : String
deriving DecidableEq

/-- Confidence multiplier lookup, mirroring
CONFIDENCE_MULTIPLIERS.get(confidence, 0.25) in kelly.py. -/
def confMult (c : String) : ℚ :=
  if c = "low" then 1/4
  else if c = "medium" then 2/5
  else if c = "high" then 1/2
  else 1/4

/-- Time decay multiplier lookup, mirroring
TIME_MULTIPLIERS.get(time_horizon, 1.0) in kelly.py. -/
def timeMult (t : String) : ℚ :=
  if t = "days" then 1
  else if t = "weeks" then 7/10
  else if t = "months" then 1/2
  else if t = "quarters" then 3/10
  else if t = "years" then 1/5
  else 1

/-- Input clamping in calculate_kelly: max(0.001, min(0.999, x)). -/
def clampProb (x : ℚ) : ℚ := max (1/1000) (min (999/1000) x)

/-- Time decay application: the Python code multiplies only when
time_horizon is truthy (not None and not the empty string). -/
def applyTime (r : ℚ) (th : Option String) : ℚ :=
  match th with
  | none => r
  | some t => if t = "" then r else r * timeMult t

/-- Full Kelly fraction as computed in kelly.py: the guarded division
followed by clamping to the unit interval. -/
def fullKellyOf (p b : ℚ) : ℚ :=
  max 0 (min 1 (if 0 < b then (p * b - (1 - p)) / b else 0))

/-- Shared tail of calculate_kelly after the trade direction, win
probability p and odds b have been fixed: Kelly fraction, confidence
multiplier, optional time decay, and the 0.10 safety cap. -/
def kellyTail (dir : String) (p b op mp : ℚ) (confidence : String)
    (th : Option String) : KellyResult :=
  { direction := dir
    edge := |op - mp|
    full_kelly := fullKellyOf p b
    recommended := min (applyTime (fullKellyOf p b * confMult confidence) th) (1/10)
    our_prob := op
    market_prob := mp
    confidence := confidence }

/-- Embedding of calculate_kelly from kelly.py. -/
def calculate_kelly (our_prob market_prob : ℚ) (confidence : String)
    (time_horizon : Option String) : KellyResult :=
  if |clampProb our_prob - clampProb market_prob| < 1/100 then
    { direction := "NO_TRADE", edge := 0, full_kelly := 0, recommended := 0,
      our_prob := clampProb our_prob, market_prob := clampProb market_prob,
      confidence := confidence }
  else if clampProb market_prob < clampProb our_prob then
    kellyTail "BUY_YES" (clampProb our_prob)
      ((1 - clampProb market_prob) / clampProb market_prob)
      (clampProb our_prob) (clampProb market_prob) confidence time_horizon
  else
    kellyTail "BUY_NO" (1 - clampProb our_prob)
      (clampProb market_prob / (1 - clampProb market_prob))
      (clampProb our_prob) (clampProb market_prob) confidence time_horizon

/-- Spec wording of the full Kelly fraction: f = (p b - (1 - p)) / b,
clamped to [0, 1]. -/
def specFull (p b : ℚ) : ℚ := max 0 (min 1 ((p * b - (1 - p)) / b))

/-- Spec wording of the confidence multiplier: low 0.25, medium 0.40,
high 0.50. -/
def specConf (c : String) : ℚ :=
  if c = "low" then 1/4 else if c = "medium" then 2/5 else 1/2

/-- Spec wording of the time multiplier, applied only when a horizon is
given: days 1.0, weeks 0.7, months 0.5, quarters 0.3, years 0.2. -/
def specTime (th : Option String) : ℚ :=
  match th with
  | none => 1
  | some t =>
    if t = "days" then 1 else if t = "weeks" then 7/10
    else if t = "months" then 1/2 else if t = "quarters" then 3/10 else 1/5

/-- Reference Kelly algorithm transcribed from the specification text
(section 4.4), used to compare calculate_kelly against the spec wording
for claim C3. -/
def kellySpecRef (our_prob market_prob : ℚ) (confidence : String)
    (time_horizon : Option String) : KellyResult :=
  if |clampProb our_prob - clampProb market_prob| < 1/100 then
    { direction := "NO_TRADE", edge := 0, full_kelly := 0, recommended := 0,
      our_prob := clampProb our_prob, market_prob := clampProb market_prob,
      confidence := confidence }
  else if clampProb market_prob < clampProb our_prob then
    { direction := "BUY_YES",
      edge := |clampProb our_prob - clampProb market_prob|,
      full_kelly := specFull (clampProb our_prob)
        ((1 - clampProb market_prob) / clampProb market_prob),
      recommended := min (specFull (clampProb our_prob)
          ((1 - clampProb market_prob) / clampProb market_prob) *
          specConf confidence * specTime time_horizon) (1/10),
      our_prob := clampProb our_prob, market_prob := clampProb market_prob,
      confidence := confidence }
  else
    { direction := "BUY_NO",
      edge := |clampProb our_prob - clampProb market_prob|,
      full_kelly := specFull (1 - clampProb our_prob)
        (clampProb market_prob / (1 - clampProb market_prob)),
      recommended := min (specFull (1 - clampProb our_prob)
          (clampProb market_prob / (1 - clampProb market_prob)) *
          specConf confidence * specTime time_horizon) (1/10),
      our_prob := clampProb our_prob, market_prob := clampProb market_prob,
      confidence := confidence }

/-! ## Payout calculator (kelly.py) -/

/-- ASCII upper-casing of the Python str.upper call on the direction
argument, written over the character list so that it reduces by
computation. -/
def pyUpper (s : String) : String := String.mk (s.data.map Char.toUpper)

/-- Result record for calculate_payout; the fields only present in the
Python dict when a positive day count is supplied are options. -/
structure PayoutResult where
  direction : String
  bet_amount : ℚ
  price : ℚ
  contracts : ℚ
  payout_if_win : ℚ
  profit_if_win : ℚ
  return_pct : ℚ
  loss_if_lose : ℚ
  days : Option ℤ
  annualized_return : Option ℚ
  risk_free_for_period : Option ℚ
  risk_free_profit : Option ℚ
  risk_premium : Option ℚ
  annual_multiplier : Option ℚ
deriving DecidableEq

/-- Embedding of calculate_payout from kelly.py. -/
def calculate_payout (bet_amount market_prob : ℚ) (direction : String)
    (days_to_resolution : Option ℤ) (risk_free_rate : ℚ) : PayoutResult :=
  let price := if pyUpper direction = "YES" then market_prob else 1 - market_prob
  let contracts := bet_amount / price
  let payout := contracts * 1
  let profit := payout - bet_amount
  let return_pct := profit / bet_amount
  let base : PayoutResult :=
    { direction := pyUpper direction, bet_amount := bet_amount, price := price,
      contracts := contracts, payout_if_win := payout, profit_if_win := profit,
      return_pct := return_pct, loss_if_lose := bet_amount,
      days := days_to_resolution, annualized_return := none,
      risk_free_for_period := none, risk_free_profit := none,
      risk_premium := none, annual_multiplier := none }
  match days_to_resolution with
  | none => base
  | some d =>
    if d ≠ 0 ∧ 0 < d then
      { base with
        annualized_return := some (return_pct * (365 / (d : ℚ)))
        risk_free_for_period := some (risk_free_rate * ((d : ℚ) / 365))
        risk_free_profit := some (bet_amount * (risk_free_rate * ((d : ℚ) / 365)))
        risk_premium := some (return_pct - risk_free_rate * ((d : ℚ) / 365))
        annual_multiplier := some (365 / (d : ℚ)) }
    else base

/-! ## Persistence layer (src/db.py, src/models.py)

The SQLite store is modelled as lists of row records, one list per
table.  Generated identifiers and clock readings are injected as
arguments (the Python code produces them with uuid4 and utcnow).  The
scoped transaction of get_connection commits on success and rolls back
on exception, so an operation is modelled as an atomic transition
returning either the fully updated state or the unchanged state paired
with an error. -/

/-- Row of the predictions table. -/
structure PredictionRow where
  id : String
  ticker : String
  agent_name : String
  probability : ℚ
  confidence : ℚ
  market_price : ℚ
  edge : ℚ
  category : Option String
  subcategory : Option String
  timestamp : String
deriving DecidableEq

/-- Row of the reasoning_traces table. -/
structure ReasoningRow where
  id : String
  prediction_id : String
  reasoning_text : String
  key_factors : List String
  unknowns : List String
  base_rate_used : Option ℚ
  timestamp : String
deriving DecidableEq

/-- Row of the markets table. -/
structure MarketRow where
  ticker : String
  title : String
  category : Option String
  subcategory : Option String
  close_time : Option String
  resolution_time : Option String
  status : String
  result : Option String
  created_at : String
  updated_at : String
deriving DecidableEq

/-- Row of the market_snapshots table. -/
structure SnapshotRow where
  id : String
  ticker : String
  yes_price : ℚ
  no_price : ℚ
  volume : ℤ
  open_interest : ℤ
  timestamp : String
deriving DecidableEq

/-- Row of the outcomes table. -/
structure OutcomeRow where
  id : String
  ticker : String
  prediction_id : String
  actual_outcome : ℤ
  predicted_probability : ℚ
  brier_score : ℚ
  resolved_at : String
deriving DecidableEq

/-- Row of the trades table. -/
structure TradeRow where
  id : String
  prediction_id : String
  ticker : String
  side : String
  contracts : ℤ
  price : ℚ
  filled_at : Option String
  status : String
  created_at : String
deriving DecidableEq

/-- The whole store: one list per table of the schema in db.py. -/
structure DBState where
  predictions : List PredictionRow
  reasoning_traces : List ReasoningRow
  markets : List MarketRow
  market_snapshots : List SnapshotRow
  outcomes : List OutcomeRow
  trades : List TradeRow
deriving DecidableEq

/-- The freshly initialised store. -/
def emptyDB : DBState :=
  { predictions := [], reasoning_traces := [], markets := [],
    market_snapshots := [], outcomes := [], trades := [] }

/-- Errors surfaced by store operations.  notFound models the
ValueError raised for an unknown prediction id; forcedFailure models an
exception injected by the environment inside the transaction. -/
inductive DBError
  | notFound
  | forcedFailure
deriving DecidableEq

/-- Fault schedule for store_outcome: run normally, or force a failure
between the outcome INSERT and the market UPDATE (the point the spec
singles out for the atomicity requirement). -/
inductive TxnFault
  | normal
  | failBetween
deriving DecidableEq

/-- Embedding of get_prediction from db.py: SELECT by primary key. -/
def get_prediction (s : DBState) (prediction_id : String) : Option PredictionRow :=
  s.predictions.find? (fun p => p.id == prediction_id)

/-- Upsert merge of store_market: ON CONFLICT the new values replace
every column except created_at, which keeps its stored value. -/
def mergeMarket (old new : MarketRow) : MarketRow :=
  { new with created_at := old.created_at }

/-- Embedding of store_market from db.py: INSERT with
ON CONFLICT(ticker) DO UPDATE. -/
def store_market (s : DBState) (m : MarketRow) : DBState :=
  if s.markets.any (fun r => r.ticker == m.ticker) then
    { s with markets :=
        s.markets.map (fun r => if r.ticker == m.ticker then mergeMarket r m else r) }
  else
    { s with markets := s.markets ++ [m] }

/-- String written into markets.result by store_outcome. -/
def resultString (actual_outcome : ℤ) : String :=
  if actual_outcome = 1 then "yes" else "no"

/-- Embedding of store_outcome from db.py.  The prediction lookup runs
first on its own connection; the outcome INSERT and the market UPDATE
then share one transaction, so a fault between them rolls both back and
the returned state is the input state. -/
def store_outcome (s : DBState) (ticker : String) (actual_outcome : ℤ)
    (prediction_id : String) (outcome_id now : String) (fault : TxnFault) :
    DBState × Except DBError (String × ℚ) :=
  match get_prediction s prediction_id with
  | none => (s, Except.error DBError.notFound)
  | some pred =>
    match fault with
    | TxnFault.failBetween => (s, Except.error DBError.forcedFailure)
    | TxnFault.normal =>
      ({ s with
          outcomes := s.outcomes ++
            [{ id := outcome_id, ticker := ticker,
               prediction_id := prediction_id,
               actual_outcome := actual_outcome,
               predicted_probability := pred.probability,
               brier_score := (pred.probability - (actual_outcome : ℚ)) ^ 2,
               resolved_at := now }],
          markets := s.markets.map (fun m =>
            if m.ticker == ticker then
              { m with status := "resolved",
                       result := some (resultString actual_outcome),
                       updated_at := now }
            else m) },
        Except.ok (outcome_id, (pred.probability - (actual_outcome : ℚ)) ^ 2))

/-! ## Analytics (src/analytics.py) -/

/-- SQL inner join of predictions and outcomes on
p.id = o.prediction_id, as used by calibration_report and
agent_performance. -/
def joinedRows (s : DBState) : List (PredictionRow × OutcomeRow) :=
  s.predictions.flatMap (fun p =>
    (s.outcomes.filter (fun o => o.prediction_id == p.id)).map (fun o => (p, o)))

/-- Rows feeding the win-rate query of agent_performance: joined rows
of the agent inside the time window with strictly positive edge,
projected to (probability, actual_outcome). -/
def agent_win_rows (s : DBState) (agent_name cutoff : String) : List (ℚ × ℤ) :=
  ((joinedRows s).filter (fun pr =>
      pr.1.agent_name == agent_name && decide (cutoff ≤ pr.1.timestamp) &&
        decide ((0:ℚ) < pr.1.edge))).map
    (fun pr => (pr.1.probability, pr.2.actual_outcome))

/-- The CASE expression of the win-rate query: a directional call that
matched the outcome. -/
def winCase (r : ℚ × ℤ) : Bool :=
  decide ((1/2 < r.1 ∧ r.2 = 1) ∨ (r.1 < 1/2 ∧ r.2 = 0))

/-- The win_rate field computed by agent_performance: wins over total
on positive-edge joined rows, and 0 when there are none. -/
def win_rate (s : DBState) (agent_name cutoff : String) : ℚ :=
  if 0 < (agent_win_rows s agent_name cutoff).length then
    (((agent_win_rows s agent_name cutoff).filter winCase).length : ℚ) /
      ((agent_win_rows s agent_name cutoff).length : ℚ)
  else 0

/-- Python int() truncation toward zero on a rational. -/
def pyTrunc (q : ℚ) : ℤ := if 0 ≤ q then ⌊q⌋ else ⌈q⌉

/-- Bucket index of calibration_report: min(int(prob * 10), 9). -/
def bucketIdx (prob : ℚ) : ℤ := min (pyTrunc (prob * 10)) 9

/-- Calibration bucket record, mirroring the CalibrationBucket
dataclass of analytics.py. -/
structure CalibrationBucket where
  range_low : ℚ
  range_high : ℚ
  prediction_count : ℕ
  actual_rate : ℚ
  avg_predicted : ℚ
  calibration_error : ℚ
deriving DecidableEq

/-- Row selection of calibration_report: joined rows inside the time
window, with the optional agent and category filters, projected to
(probability, actual_outcome). -/
def calibration_rows (s : DBState) (agent_name category : Option String)
    (cutoff : String) : List (ℚ × ℤ) :=
  ((joinedRows s).filter (fun pr =>
      decide (cutoff ≤ pr.1.timestamp) &&
      (match agent_name with
       | none => true
       | some a => pr.1.agent_name == a) &&
      (match category with
       | none => true
       | some c => pr.1.category == some c))).map
    (fun pr => (pr.1.probability, pr.2.actual_outcome))

/-- Statistics of one populated bucket, exactly as computed in
calibration_report: count, mean predicted, empirical YES rate and
absolute calibration error. -/
def mkBucket (idx : ℕ) (grp : List (ℚ × ℤ)) : CalibrationBucket :=
  { range_low := (idx : ℚ) / 10
    range_high := ((idx : ℚ) + 1) / 10
    prediction_count := grp.length
    actual_rate := ((grp.map Prod.snd).sum : ℚ) / (grp.length : ℚ)
    avg_predicted := (grp.map Prod.fst).sum / (grp.length : ℚ)
    calibration_error :=
      |((grp.map Prod.snd).sum : ℚ) / (grp.length : ℚ) -
        (grp.map Prod.fst).sum / (grp.length : ℚ)| }

/-- Rows landing in bucket idx under the code bucketing rule. -/
def bucketRows (rows : List (ℚ × ℤ)) (idx : ℕ) : List (ℚ × ℤ) :=
  rows.filter (fun r => bucketIdx r.1 == (idx : ℤ))

/-- Bucketing loop of calibration_report: buckets 0 through 9 in order,
with empty buckets omitted. -/
def calibration_buckets (rows : List (ℚ × ℤ)) : List CalibrationBucket :=
  (List.range 10).filterMap (fun idx =>
    if bucketRows rows idx = [] then none
    else some (mkBucket idx (bucketRows rows idx)))

/-- Embedding of calibration_report from analytics.py. -/
def calibration_report (s : DBState) (agent_name category : Option String)
    (cutoff : String) : List CalibrationBucket :=
  calibration_buckets (calibration_rows s agent_name category cutoff)

/-- Bucket membership transcribed from the specification text: ten
equal-width bins, half open except the last, which also contains
probability exactly 1. -/
def specBinB (idx : ℕ) (prob : ℚ) : Bool :=
  if idx = 9 then decide ((9:ℚ)/10 ≤ prob) && decide (prob ≤ 1)
  else decide ((idx : ℚ)/10 ≤ prob) && decide (prob < ((idx : ℚ) + 1)/10)

/-- Bucketing transcribed from the specification text, to be compared
with calibration_buckets for claim C7. -/
def calibration_buckets_spec (rows : List (ℚ × ℤ)) : List CalibrationBucket :=
  (List.range 10).filterMap (fun idx =>
    if rows.filter (fun r => specBinB idx r.1) = [] then none
    else some (mkBucket idx (rows.filter (fun r => specBinB idx r.1))))

/-! ## Store invariants and concrete fixtures -/

/-- Invariant of claim C9: a market result is non-null only on a
resolved row. -/
def marketResultInv (s : DBState) : Prop :=
  ∀ m ∈ s.markets, m.result ≠ none → m.status = "resolved"

instance (s : DBState) : Decidable (marketResultInv s) := by
  unfold marketResultInv; infer_instance

/-- Invariant of claim C5: every outcome row references a stored
prediction, and no prediction id occurs in two outcome rows. -/
def outcomeUniqueInv (s : DBState) : Prop :=
  (∀ o ∈ s.outcomes, ∃ p ∈ s.predictions, p.id = o.prediction_id) ∧
    ∀ o ∈ s.outcomes, ∀ o₂ ∈ s.outcomes,
      o.prediction_id = o₂.prediction_id → o = o₂

/-- Concrete prediction row used by witnesses and counterexamples. -/
def predP1 : PredictionRow :=
  { id := "p1", ticker := "T1", agent_name := "alice", probability := 3/5,
    confidence := 1/2, market_price := 1/2, edge := 1/10,
    category := none, subcategory := none,
    timestamp := "2024-01-02T00:00:00" }

/-- Concrete outcome row resolving predP1, as produced by an earlier
store_outcome call. -/
def outO1 : OutcomeRow :=
  { id := "o1", ticker := "T1", prediction_id := "p1", actual_outcome := 1,
    predicted_probability := 3/5, brier_score := 4/25,
    resolved_at := "2024-01-03T00:00:00" }

/-- Outcome row produced by a second, duplicate resolution of predP1
with actual outcome 0. -/
def outO2 : OutcomeRow :=
  { id := "o2", ticker := "T1", prediction_id := "p1", actual_outcome := 0,
    predicted_probability := predP1.probability,
    brier_score := (predP1.probability - ((0:ℤ) : ℚ)) ^ 2,
    resolved_at := "2024-01-04T00:00:00" }

/-- Concrete market row for T1, open and unresolved. -/
def mktT1 : MarketRow :=
  { ticker := "T1", title := "demo", category := none, subcategory := none,
    close_time := none, resolution_time := none, status := "open",
    result := none, created_at := "2024-01-01T00:00:00",
    updated_at := "2024-01-01T00:00:00" }

/-- Store holding one prediction, its market and one outcome already
resolving it. -/
def dbResolvedOnce : DBState :=
  { predictions := [predP1], reasoning_traces := [], markets := [mktT1],
    market_snapshots := [], outcomes := [outO1], trades := [] }

/-- Market row carrying a result while not resolved, as a caller may
hand to store_market. -/
def badMarket : MarketRow :=
  { ticker := "T2", title := "bad", category := none, subcategory := none,
    close_time := none, resolution_time := none, status := "open",
    result := some "yes", created_at := "2024-01-01T00:00:00",
    updated_at := "2024-01-01T00:00:00" }

instance (s : DBState) : Decidable (outcomeUniqueInv s) := by
  unfold outcomeUniqueInv; infer_instance

/-! ## Theorems about the persistence layer -/

/-- C1: a successful store_outcome inserts one outcome row whose
predicted probability is the probability carried by the named
prediction and whose Brier score is (p - y) squared, and atomically
with that insert sets the ticker market to status resolved with result
yes when y = 1 and no when y = 0, returning the outcome id and the
Brier score. -/
theorem store_outcome_resolves (s : DBState) (ticker : String) (y : ℤ)
    (prediction_id outcome_id now : String) (pred : PredictionRow)
    (hp : get_prediction s prediction_id = some pred)
    (_hy : y = 0 ∨ y = 1) :
    store_outcome s ticker y prediction_id outcome_id now TxnFault.normal =
      ({ s with
          outcomes := s.outcomes ++
            [{ id := outcome_id, ticker := ticker,
               prediction_id := prediction_id, actual_outcome := y,
               predicted_probability := pred.probability,
               brier_score := (pred.probability - (y : ℚ)) ^ 2,
               resolved_at := now }],
          markets := s.markets.map (fun m =>
            if m.ticker == ticker then
              { m with status := "resolved",
                       result := some (if y = 1 then "yes" else "no"),
                       updated_at := now }
            else m) },
        Except.ok (outcome_id, (pred.probability - (y : ℚ)) ^ 2)) := by
  simp [store_outcome, hp, resultString]

/-- Witness for C1 at a concrete store. -/
theorem store_outcome_resolves_witness :
    (store_outcome dbResolvedOnce "T1" 0 "p1" "o2" "2024-01-04T00:00:00"
        TxnFault.normal).2 =
      Except.ok ("o2", (predP1.probability - ((0 : ℤ) : ℚ)) ^ 2) := by
  have h := store_outcome_resolves dbResolvedOnce "T1" 0 "p1" "o2"
    "2024-01-04T00:00:00" predP1 rfl (Or.inl rfl)
  rw [h]

/-- C2: store_outcome fails with notFound on an unknown prediction id,
and every failing run, the forced mid-transaction failure included,
returns the store exactly unchanged: no orphan outcome row and no
market status change persist. -/
theorem store_outcome_failure_atomic (s : DBState) (ticker : String)
    (y : ℤ) (prediction_id outcome_id now : String) (fault : TxnFault) :
    (get_prediction s prediction_id = none →
      store_outcome s ticker y prediction_id outcome_id now fault =
        (s, Except.error DBError.notFound)) ∧
    (∀ e : DBError,
      (store_outcome s ticker y prediction_id outcome_id now fault).2 =
          Except.error e →
        (store_outcome s ticker y prediction_id outcome_id now fault).1 = s) ∧
    (store_outcome s ticker y prediction_id outcome_id now
        TxnFault.failBetween).1 = s := by
  refine ⟨fun h => by simp [store_outcome, h], fun e he => ?_, ?_⟩
  · unfold store_outcome at he ⊢
    cases hg : get_prediction s prediction_id with
    | none => simp [hg]
    | some pred =>
      cases fault with
      | normal => rw [hg] at he; exact absurd he (by simp)
      | failBetween => simp [hg]
  · unfold store_outcome
    cases hg : get_prediction s prediction_id <;> simp

/-- Witness for C2 at a concrete store. -/
theorem store_outcome_failure_atomic_witness :
    store_outcome emptyDB "T1" 1 "missing" "o1" "2024-01-04T00:00:00"
        TxnFault.normal =
      (emptyDB, Except.error DBError.notFound) :=
  (store_outcome_failure_atomic emptyDB "T1" 1 "missing" "o1"
    "2024-01-04T00:00:00" TxnFault.normal).1 rfl

/-- C5 as a code observation: a second store_outcome call for an
already resolved prediction id succeeds and inserts a second outcome
row for that prediction, so the one-outcome-per-prediction invariant
fails on a reachable store. -/
theorem store_outcome_duplicate_row :
    (store_outcome dbResolvedOnce "T1" 0 "p1" "o2" "2024-01-04T00:00:00"
        TxnFault.normal).2 = Except.ok ("o2", 9/25) ∧
    ((store_outcome dbResolvedOnce "T1" 0 "p1" "o2" "2024-01-04T00:00:00"
        TxnFault.normal).1.outcomes.filter
        (fun o => o.prediction_id == "p1")).length = 2 ∧
    ¬ outcomeUniqueInv (store_outcome dbResolvedOnce "T1" 0 "p1" "o2"
        "2024-01-04T00:00:00" TxnFault.normal).1 := by
  have houts : (store_outcome dbResolvedOnce "T1" 0 "p1" "o2"
      "2024-01-04T00:00:00" TxnFault.normal).1.outcomes = [outO1, outO2] := rfl
  refine ⟨?_, ?_, ?_⟩
  · show Except.ok ("o2", (predP1.probability - ((0:ℤ):ℚ)) ^ 2) =
      Except.ok ("o2", 9/25)
    have hb : (predP1.probability - ((0:ℤ):ℚ)) ^ 2 = 9/25 := by
      norm_num [predP1]
    rw [hb]
  · rw [houts]; rfl
  · intro h
    have h2 := h.2 outO1 (by rw [houts]; exact List.mem_cons_self _ _)
      outO2 (by rw [houts]; exact List.mem_cons_of_mem _ (List.mem_cons_self _ _))
      rfl
    have hid : outO1.id = outO2.id := congrArg OutcomeRow.id h2
    simp [outO1, outO2] at hid

/-- C9 counterexample: store_market writes caller-supplied status and
result unchecked, so one call on the fresh store yields a market row
carrying a result while its status is open. -/
theorem store_market_breaks_result_inv :
    ¬ marketResultInv (store_market emptyDB badMarket) := by decide

/-- C9 amended: store_outcome always preserves the
result-only-when-resolved invariant, and store_market preserves it
whenever the supplied market row itself satisfies it. -/
theorem market_result_inv_preserved (s : DBState) (hs : marketResultInv s) :
    (∀ m : MarketRow, (m.result ≠ none → m.status = "resolved") →
      marketResultInv (store_market s m)) ∧
    (∀ ticker y prediction_id outcome_id now fault,
      marketResultInv
        (store_outcome s ticker y prediction_id outcome_id now fault).1) := by
  constructor
  · intro m hm
    unfold store_market
    split
    · intro m' hm' hr
      rcases List.mem_map.mp hm' with ⟨r, hrs, heq⟩
      by_cases hc : r.ticker == m.ticker
      · rw [if_pos hc] at heq
        subst heq
        exact hm hr
      · rw [if_neg hc] at heq
        subst heq
        exact hs r hrs hr
    · intro m' hm' hr
      rcases List.mem_append.mp hm' with h | h
      · exact hs m' h hr
      · rcases List.mem_singleton.mp h with rfl
        exact hm hr
  · intro ticker y prediction_id outcome_id now fault
    unfold store_outcome
    cases hg : get_prediction s prediction_id with
    | none => exact hs
    | some pred =>
      cases fault with
      | failBetween => exact hs
      | normal =>
        intro m' hm' hr
        rcases List.mem_map.mp hm' with ⟨r, hrs, heq⟩
        by_cases hc : r.ticker == ticker
        · rw [if_pos hc] at heq
          subst heq
          rfl
        · rw [if_neg hc] at heq
          subst heq
          exact hs r hrs hr

/-- Witness for the amended C9 at a concrete store. -/
theorem market_result_inv_preserved_witness :
    marketResultInv
      (store_outcome dbResolvedOnce "T1" 1 "p1" "o9" "2024-01-04T00:00:00"
        TxnFault.normal).1 :=
  (market_result_inv_preserved dbResolvedOnce (by decide)).2 "T1" 1 "p1" "o9"
    "2024-01-04T00:00:00" TxnFault.normal

/-- Helper: updating market rows keyed on a ticker carried by no row is
a no-op. -/
theorem map_market_update_eq_self (l : List MarketRow) (t : String)
    (f : MarketRow → MarketRow) (h : ∀ m ∈ l, m.ticker ≠ t) :
    l.map (fun m => if m.ticker == t then f m else m) = l := by
  induction l with
  | nil => rfl
  | cons a l ih =>
    simp only [List.map_cons]
    rw [if_neg (by simpa using h a (List.mem_cons_self a l)),
      ih (fun m hm => h m (List.mem_cons_of_mem a hm))]

/-- C10: store_outcome touches only the outcomes and markets tables;
its market UPDATE is keyed on the caller-supplied ticker argument, with
no requirement that it match the ticker of the resolved prediction, and
when no market row carries that ticker the call still succeeds, still
inserts the outcome row, and changes no market row. -/
theorem store_outcome_frame (s : DBState) (ticker : String) (y : ℤ)
    (prediction_id outcome_id now : String) (pred : PredictionRow)
    (hp : get_prediction s prediction_id = some pred) :
    (store_outcome s ticker y prediction_id outcome_id now
        TxnFault.normal).1.predictions = s.predictions ∧
    (store_outcome s ticker y prediction_id outcome_id now
        TxnFault.normal).1.reasoning_traces = s.reasoning_traces ∧
    (store_outcome s ticker y prediction_id outcome_id now
        TxnFault.normal).1.market_snapshots = s.market_snapshots ∧
    (store_outcome s ticker y prediction_id outcome_id now
        TxnFault.normal).1.trades = s.trades ∧
    (store_outcome s ticker y prediction_id outcome_id now
        TxnFault.normal).2 =
      Except.ok (outcome_id, (pred.probability - (y : ℚ)) ^ 2) ∧
    (store_outcome s ticker y prediction_id outcome_id now
        TxnFault.normal).1.outcomes = s.outcomes ++
      [{ id := outcome_id, ticker := ticker, prediction_id := prediction_id,
         actual_outcome := y, predicted_probability := pred.probability,
         brier_score := (pred.probability - (y : ℚ)) ^ 2,
         resolved_at := now }] ∧
    ((∀ m ∈ s.markets, m.ticker ≠ ticker) →
      (store_outcome s ticker y prediction_id outcome_id now
        TxnFault.normal).1.markets = s.markets) ∧
    (∀ fault : TxnFault,
      (store_outcome s ticker y prediction_id outcome_id now
        fault).1.predictions = s.predictions ∧
      (store_outcome s ticker y prediction_id outcome_id now
        fault).1.reasoning_traces = s.reasoning_traces ∧
      (store_outcome s ticker y prediction_id outcome_id now
        fault).1.market_snapshots = s.market_snapshots ∧
      (store_outcome s ticker y prediction_id outcome_id now
        fault).1.trades = s.trades) := by
  refine ?_
  simp only [store_outcome, hp]
  refine ⟨trivial, trivial, trivial, trivial, trivial, trivial,
    fun h => map_market_update_eq_self s.markets ticker _ h, ?_⟩
  intro fault
  cases fault <;> exact ⟨rfl, rfl, rfl, rfl⟩

/-- Witness for C10 at a concrete store whose prediction ticker differs
from the caller ticker and where no market row carries the caller
ticker. -/
theorem store_outcome_frame_witness :
    (∀ m ∈ dbResolvedOnce.markets, m.ticker ≠ "TX") ∧
    predP1.ticker ≠ "TX" ∧
    (store_outcome dbResolvedOnce "TX" 1 "p1" "o3" "2024-01-05T00:00:00"
        TxnFault.normal).1.markets = dbResolvedOnce.markets :=
  ⟨by decide, by decide,
    (store_outcome_frame dbResolvedOnce "TX" 1 "p1" "o3" "2024-01-05T00:00:00"
      predP1 rfl).2.2.2.2.2.2.1 (by decide)⟩

/-! ## Theorems about the Kelly calculator -/

/-- Helper: the clamp keeps probabilities strictly positive. -/
theorem clampProb_pos (x : ℚ) : 0 < clampProb x :=
  lt_of_lt_of_le (by norm_num) (le_max_left _ _)

/-- Helper: the clamp keeps probabilities strictly below one. -/
theorem clampProb_lt_one (x : ℚ) : clampProb x < 1 :=
  max_lt (by norm_num) (lt_of_le_of_lt (min_le_left _ _) (by norm_num))

/-- Helper: the confidence multiplier always lies in [0, 1/2]. -/
theorem confMult_bounds (c : String) :
    0 ≤ confMult c ∧ confMult c ≤ 1/2 := by
  unfold confMult
  split_ifs <;> norm_num

/-- Helper: the time multiplier always lies in [0, 1]. -/
theorem timeMult_bounds (t : String) :
    0 ≤ timeMult t ∧ timeMult t ≤ 1 := by
  unfold timeMult
  split_ifs <;> norm_num

/-- Helper: time decay never increases a nonnegative recommendation. -/
theorem applyTime_le (r : ℚ) (th : Option String) (hr : 0 ≤ r) :
    applyTime r th ≤ r := by
  cases th with
  | none => exact le_refl r
  | some t =>
    show (if t = "" then r else r * timeMult t) ≤ r
    split_ifs
    · exact le_refl r
    · exact mul_le_of_le_one_right hr (timeMult_bounds t).2

/-- Helper: bounds on the recommendation produced by the shared tail of
calculate_kelly. -/
theorem kellyTail_rec_bounds (dir : String) (p b op mp : ℚ)
    (confidence : String) (th : Option String) :
    (kellyTail dir p b op mp confidence th).recommended ≤ 1/10 ∧
    (kellyTail dir p b op mp confidence th).recommended ≤
      (kellyTail dir p b op mp confidence th).full_kelly / 2 := by
  simp only [kellyTail]
  refine ⟨min_le_right _ _, le_trans (min_le_left _ _) ?_⟩
  have hfk : 0 ≤ fullKellyOf p b := le_max_left 0 _
  have hcm := confMult_bounds confidence
  have h3 := applyTime_le (fullKellyOf p b * confMult confidence) th
    (mul_nonneg hfk hcm.1)
  have h4 : fullKellyOf p b * confMult confidence ≤ fullKellyOf p b * (1/2) :=
    mul_le_mul_of_nonneg_left hcm.2 hfk
  linarith

/-- C4: for every input, any confidence string and any time horizon
included, the recommended fraction never exceeds 0.10 of bankroll and
never exceeds half of the full Kelly fraction. -/
theorem kelly_recommended_bounds (our_prob market_prob : ℚ)
    (confidence : String) (time_horizon : Option String) :
    (calculate_kelly our_prob market_prob confidence time_horizon).recommended ≤
      1/10 ∧
    (calculate_kelly our_prob market_prob confidence time_horizon).recommended ≤
      (calculate_kelly our_prob market_prob confidence time_horizon).full_kelly
        / 2 := by
  unfold calculate_kelly
  split_ifs with h1 h2
  · exact ⟨by norm_num, by norm_num⟩
  · exact kellyTail_rec_bounds _ _ _ _ _ _ _
  · exact kellyTail_rec_bounds _ _ _ _ _ _ _

/-- Helper: the clamp is the identity on values already inside
[0.001, 0.999]. -/
theorem clampProb_eq {x : ℚ} (h1 : 1/1000 ≤ x) (h2 : x ≤ 999/1000) :
    clampProb x = x := by
  unfold clampProb
  rw [min_eq_right h2, max_eq_right h1]

/-- Helper: the code confidence lookup agrees with the spec multiplier
on the three valid labels. -/
theorem confMult_eq_specConf (c : String)
    (hc : c = "low" ∨ c = "medium" ∨ c = "high") :
    confMult c = specConf c := by
  rcases hc with rfl | rfl | rfl <;> rfl

/-- Helper: the code time-decay application agrees with multiplying by
the spec time multiplier on the valid horizons. -/
theorem applyTime_eq_specTime (r : ℚ) (th : Option String)
    (ht : th = none ∨ th = some "days" ∨ th = some "weeks" ∨
        th = some "months" ∨ th = some "quarters" ∨ th = some "years") :
    applyTime r th = r * specTime th := by
  rcases ht with rfl | rfl | rfl | rfl | rfl | rfl <;>
    simp [applyTime, timeMult, specTime]

/-- Helper: with positive odds the guarded division of the code equals
the spec formula. -/
theorem fullKellyOf_eq_specFull (p b : ℚ) (hb : 0 < b) :
    fullKellyOf p b = specFull p b := by
  unfold fullKellyOf specFull
  rw [if_pos hb]

/-- Helper: pointwise agreement of calculate_kelly with the spec
reference algorithm. -/
theorem calculate_kelly_eq_spec (our_prob market_prob : ℚ)
    (confidence : String) (time_horizon : Option String)
    (hc : confidence = "low" ∨ confidence = "medium" ∨ confidence = "high")
    (ht : time_horizon = none ∨ time_horizon = some "days" ∨
        time_horizon = some "weeks" ∨ time_horizon = some "months" ∨
        time_horizon = some "quarters" ∨ time_horizon = some "years") :
    calculate_kelly our_prob market_prob confidence time_horizon =
      kellySpecRef our_prob market_prob confidence time_horizon := by
  have hb1 : (0:ℚ) < (1 - clampProb market_prob) / clampProb market_prob :=
    div_pos (by linarith [clampProb_lt_one market_prob])
      (clampProb_pos market_prob)
  have hb2 : (0:ℚ) < clampProb market_prob / (1 - clampProb market_prob) :=
    div_pos (clampProb_pos market_prob)
      (by linarith [clampProb_lt_one market_prob])
  unfold calculate_kelly kellySpecRef kellyTail
  split_ifs with h1 h2
  · rfl
  · rw [fullKellyOf_eq_specFull _ _ hb1, confMult_eq_specConf confidence hc,
      applyTime_eq_specTime _ _ ht]
  · rw [fullKellyOf_eq_specFull _ _ hb2, confMult_eq_specConf confidence hc,
      applyTime_eq_specTime _ _ ht]

/-- C3: calculate_kelly agrees with the reference algorithm transcribed
from the specification on every input with a valid confidence label and
a valid or absent time horizon, and the two concrete spec examples hold:
(0.30, 0.50, medium) gives BUY_NO with edge 0.20 and the capped
recommendation, and (0.50, 0.505, high) falls in the dead zone. -/
theorem calculate_kelly_matches_spec (our_prob market_prob : ℚ)
    (confidence : String) (time_horizon : Option String)
    (hc : confidence = "low" ∨ confidence = "medium" ∨ confidence = "high")
    (ht : time_horizon = none ∨ time_horizon = some "days" ∨
        time_horizon = some "weeks" ∨ time_horizon = some "months" ∨
        time_horizon = some "quarters" ∨ time_horizon = some "years") :
    calculate_kelly our_prob market_prob confidence time_horizon =
      kellySpecRef our_prob market_prob confidence time_horizon ∧
    (calculate_kelly (3/10) (1/2) "medium" none).direction = "BUY_NO" ∧
    (calculate_kelly (3/10) (1/2) "medium" none).edge = 1/5 ∧
    (calculate_kelly (3/10) (1/2) "medium" none).recommended =
      min (1/10)
        ((calculate_kelly (3/10) (1/2) "medium" none).full_kelly * (2/5)) ∧
    (calculate_kelly (1/2) (101/200) "high" none).direction = "NO_TRADE" := by
  have c1 : clampProb (3/10) = 3/10 := clampProb_eq (by norm_num) (by norm_num)
  have c2 : clampProb (1/2) = 1/2 := clampProb_eq (by norm_num) (by norm_num)
  have c3 : clampProb (101/200) = 101/200 :=
    clampProb_eq (by norm_num) (by norm_num)
  have habs : |(3:ℚ)/10 - 1/2| = 1/5 := by
    rw [abs_sub_comm, abs_of_nonneg (by norm_num : (0:ℚ) ≤ 1/2 - 3/10)]
    norm_num
  have habs2 : |(1:ℚ)/2 - 101/200| = 1/200 := by
    rw [abs_sub_comm, abs_of_nonneg (by norm_num : (0:ℚ) ≤ 101/200 - 1/2)]
    norm_num
  have e1 : calculate_kelly (3/10) (1/2) "medium" none =
      kellyTail "BUY_NO" (1 - 3/10) ((1/2) / (1 - 1/2)) (3/10) (1/2)
        "medium" none := by
    unfold calculate_kelly
    rw [c1, c2, if_neg (by rw [habs]; norm_num), if_neg (by norm_num)]
  have efull : fullKellyOf (1 - (3:ℚ)/10) ((1/2) / (1 - 1/2)) = 2/5 := by
    unfold fullKellyOf
    rw [if_pos (by norm_num : (0:ℚ) < (1/2) / (1 - 1/2))]
    rw [show ((1 - (3:ℚ)/10) * ((1/2) / (1 - 1/2)) - (1 - (1 - 3/10))) /
        ((1/2) / (1 - 1/2)) = 2/5 by norm_num]
    rw [min_eq_right (by norm_num), max_eq_right (by norm_num)]
  refine ⟨calculate_kelly_eq_spec our_prob market_prob confidence time_horizon
    hc ht, ?_, ?_, ?_, ?_⟩
  · rw [e1]
    rfl
  · rw [e1]
    show |(3:ℚ)/10 - 1/2| = 1/5
    exact habs
  · rw [e1]
    show min (applyTime (fullKellyOf (1 - (3:ℚ)/10) ((1/2) / (1 - 1/2)) *
        confMult "medium") none) (1/10) =
      min (1/10) (fullKellyOf (1 - (3:ℚ)/10) ((1/2) / (1 - 1/2)) * (2/5))
    rw [efull]
    show min ((2:ℚ)/5 * confMult "medium") (1/10) = min (1/10) (2/5 * (2/5))
    rw [show confMult "medium" = 2/5 from rfl, min_comm]
  · unfold calculate_kelly
    rw [c2, c3, if_pos (by rw [habs2]; norm_num)]

/-- Witness for C3 at the concrete spec example. -/
theorem calculate_kelly_matches_spec_witness :
    calculate_kelly (3/10) (1/2) "medium" none =
      kellySpecRef (3/10) (1/2) "medium" none :=
  (calculate_kelly_matches_spec (3/10) (1/2) "medium" none
    (Or.inr (Or.inl rfl)) (Or.inl rfl)).1

/-- C8: calculate_payout computes price, contract count, payout, profit,
percentage return and loss from the stated formulas; with a positive day
count it additionally reports the simple annualized return, the
risk-free comparison and the risk premium; and the concrete spec example
(5000 on NO at market 0.13 over 365 days) evaluates as stated. -/
theorem calculate_payout_formulas (bet mp rate : ℚ) (dir : String)
    (days : Option ℤ) (_hb : 0 < bet) (_h0 : 0 < mp) (_h1 : mp < 1)
    (hdir : dir = "YES" ∨ dir = "NO") :
    ((calculate_payout bet mp dir days rate).price =
      if dir = "YES" then mp else 1 - mp) ∧
    (calculate_payout bet mp dir days rate).contracts =
      bet / (calculate_payout bet mp dir days rate).price ∧
    (calculate_payout bet mp dir days rate).payout_if_win =
      (calculate_payout bet mp dir days rate).contracts ∧
    (calculate_payout bet mp dir days rate).profit_if_win =
      (calculate_payout bet mp dir days rate).payout_if_win - bet ∧
    (calculate_payout bet mp dir days rate).return_pct =
      (calculate_payout bet mp dir days rate).profit_if_win / bet ∧
    (calculate_payout bet mp dir days rate).loss_if_lose = bet ∧
    (∀ d : ℤ, days = some d → 0 < d →
      (calculate_payout bet mp dir days rate).annualized_return =
        some ((calculate_payout bet mp dir days rate).return_pct *
          (365 / (d : ℚ))) ∧
      (calculate_payout bet mp dir days rate).risk_premium =
        some ((calculate_payout bet mp dir days rate).return_pct -
          rate * ((d : ℚ) / 365)) ∧
      (calculate_payout bet mp dir days rate).annual_multiplier =
        some (365 / (d : ℚ))) ∧
    (calculate_payout 5000 (13/100) "NO" (some 365) (1/20)).price = 87/100 ∧
    (calculate_payout 5000 (13/100) "NO" (some 365) (1/20)).contracts =
      500000/87 ∧
    (calculate_payout 5000 (13/100) "NO" (some 365) (1/20)).profit_if_win =
      65000/87 ∧
    (calculate_payout 5000 (13/100) "NO" (some 365) (1/20)).return_pct =
      13/87 ∧
    (calculate_payout 5000 (13/100) "NO" (some 365) (1/20)).annualized_return =
      some (13/87) ∧
    |(calculate_payout 5000 (13/100) "NO" (some 365) (1/20)).contracts -
      57471/10| < 1/10 ∧
    |(calculate_payout 5000 (13/100) "NO" (some 365) (1/20)).return_pct -
      1494/10000| < 1/10000 := by
  have hupY : pyUpper "YES" = "YES" := rfl
  have hupN : pyUpper "NO" = "NO" := rfl
  have hne : ¬ ("NO" : String) = "YES" := by decide
  have k1 : (calculate_payout bet mp dir days rate).price =
      if pyUpper dir = "YES" then mp else 1 - mp := by
    cases days with
    | none => rfl
    | some d =>
      simp only [calculate_payout]
      split_ifs <;> rfl
  have k2 : (calculate_payout bet mp dir days rate).contracts =
      bet / (calculate_payout bet mp dir days rate).price := by
    cases days with
    | none => rfl
    | some d =>
      simp only [calculate_payout]
      split_ifs <;> rfl
  have k3 : (calculate_payout bet mp dir days rate).payout_if_win =
      (calculate_payout bet mp dir days rate).contracts * 1 := by
    cases days with
    | none => rfl
    | some d =>
      simp only [calculate_payout]
      split_ifs <;> rfl
  have k4 : (calculate_payout bet mp dir days rate).profit_if_win =
      (calculate_payout bet mp dir days rate).payout_if_win - bet := by
    cases days with
    | none => rfl
    | some d =>
      simp only [calculate_payout]
      split_ifs <;> rfl
  have k5 : (calculate_payout bet mp dir days rate).return_pct =
      (calculate_payout bet mp dir days rate).profit_if_win / bet := by
    cases days with
    | none => rfl
    | some d =>
      simp only [calculate_payout]
      split_ifs <;> rfl
  have k6 : (calculate_payout bet mp dir days rate).loss_if_lose = bet := by
    cases days with
    | none => rfl
    | some d =>
      simp only [calculate_payout]
      split_ifs <;> rfl
  have k7 : ∀ d : ℤ, days = some d → 0 < d →
      (calculate_payout bet mp dir days rate).annualized_return =
        some ((calculate_payout bet mp dir days rate).return_pct *
          (365 / (d : ℚ))) ∧
      (calculate_payout bet mp dir days rate).risk_premium =
        some ((calculate_payout bet mp dir days rate).return_pct -
          rate * ((d : ℚ) / 365)) ∧
      (calculate_payout bet mp dir days rate).annual_multiplier =
        some (365 / (d : ℚ)) := by
    cases days with
    | none =>
      intro d hd _
      exact absurd hd (by simp)
    | some d0 =>
      intro d hd2 hpos
      injection hd2 with h
      subst h
      simp only [calculate_payout]
      rw [if_pos (show d0 ≠ 0 ∧ 0 < d0 from ⟨by omega, hpos⟩)]
      exact ⟨rfl, rfl, rfl⟩
  have hex : calculate_payout 5000 (13/100) "NO" (some 365) (1/20) =
      { direction := "NO", bet_amount := 5000, price := 87/100,
        contracts := 500000/87, payout_if_win := 500000/87,
        profit_if_win := 65000/87, return_pct := 13/87, loss_if_lose := 5000,
        days := some 365, annualized_return := some (13/87),
        risk_free_for_period := some (1/20),
        risk_free_profit := some 250, risk_premium := some (13/87 - 1/20),
        annual_multiplier := some 1 } := by
    simp only [calculate_payout]
    rw [if_pos (show (365:ℤ) ≠ 0 ∧ (0:ℤ) < 365 by norm_num)]
    simp only [hupN]
    rw [if_neg hne]
    norm_num [PayoutResult.mk.injEq]
  refine ⟨?_, k2, by rw [k3, mul_one], k4, k5, k6, k7, ?_, ?_, ?_, ?_, ?_,
    ?_, ?_⟩
  · rcases hdir with rfl | rfl
    · rw [k1, hupY]
    · rw [k1, hupN]
  · rw [hex]
  · rw [hex]
  · rw [hex]
  · rw [hex]
  · rw [hex]
  · rw [hex]
    show |(500000:ℚ)/87 - 57471/10| < 1/10
    rw [abs_of_nonneg (by norm_num)]
    norm_num
  · rw [hex]
    show |(13:ℚ)/87 - 1494/10000| < 1/10000
    rw [abs_of_nonneg (by norm_num)]
    norm_num

/-- Witness for C8 at the concrete spec example. -/
theorem calculate_payout_formulas_witness :
    (calculate_payout 5000 (13/100) "NO" (some 365) (1/20)).loss_if_lose =
      5000 :=
  (calculate_payout_formulas 5000 (13/100) (1/20) "NO" (some 365)
    (by norm_num) (by norm_num) (by norm_num) (Or.inr rfl)).2.2.2.2.2.1

/-! ## Theorems about the analytics -/

/-- Helper: the joined positive-edge row selection is unchanged by
adding a nonpositive-edge prediction with its outcome, when the new
prediction id is fresh. -/
theorem agent_win_rows_append (s : DBState) (agent_name cutoff : String)
    (p : PredictionRow) (o : OutcomeRow)
    (ho : o.prediction_id = p.id) (he : p.edge ≤ 0)
    (hfresh : ∀ q ∈ s.predictions, q.id ≠ p.id) :
    agent_win_rows { s with
        predictions := s.predictions ++ [p],
        outcomes := s.outcomes ++ [o] } agent_name cutoff =
      agent_win_rows s agent_name cutoff := by
  unfold agent_win_rows joinedRows
  have hpreds : ({ s with
      predictions := s.predictions ++ [p],
      outcomes := s.outcomes ++ [o] } : DBState).predictions =
      s.predictions ++ [p] := rfl
  have houts : ({ s with
      predictions := s.predictions ++ [p],
      outcomes := s.outcomes ++ [o] } : DBState).outcomes =
      s.outcomes ++ [o] := rfl
  rw [hpreds, houts, List.flatMap_append]
  have h1 : s.predictions.flatMap (fun q =>
      ((s.outcomes ++ [o]).filter
        (fun o2 => o2.prediction_id == q.id)).map (fun o2 => (q, o2))) =
      s.predictions.flatMap (fun q =>
        (s.outcomes.filter
          (fun o2 => o2.prediction_id == q.id)).map (fun o2 => (q, o2))) := by
    apply List.flatMap_congr
    intro q hq
    have hbeq : (o.prediction_id == q.id) = false :=
      beq_eq_false_iff_ne.mpr (by
        rw [ho]
        exact fun hh => hfresh q hq hh.symm)
    rw [List.filter_append, List.filter_cons, hbeq]
    simp
  rw [h1, List.filter_append]
  have h2 : (([p].flatMap (fun q =>
      ((s.outcomes ++ [o]).filter
        (fun o2 => o2.prediction_id == q.id)).map (fun o2 => (q, o2)))).filter
      (fun pr => pr.1.agent_name == agent_name &&
        decide (cutoff ≤ pr.1.timestamp) &&
        decide ((0:ℚ) < pr.1.edge))) = [] := by
    rw [List.filter_eq_nil_iff]
    intro x hx
    rcases List.mem_flatMap.mp hx with ⟨q, hq, hxq⟩
    rcases List.mem_map.mp hxq with ⟨o2, _, rfl⟩
    rcases List.mem_singleton.mp hq with rfl
    simp only [Bool.and_eq_true, decide_eq_true_eq]
    exact fun h => absurd h.2 (not_lt.mpr he)
  rw [h2, List.append_nil]

/-- C6: agent_performance computes win_rate only over resolved
predictions with strictly positive edge; a win is a directional call
matching the outcome; adding a resolved prediction with nonpositive
edge leaves win_rate unchanged; and with no positive-edge resolved
prediction win_rate is 0 rather than a division by zero. -/
theorem win_rate_ignores_nonpositive_edge (s : DBState)
    (agent_name cutoff : String) (p : PredictionRow) (o : OutcomeRow)
    (ho : o.prediction_id = p.id) (he : p.edge ≤ 0)
    (hfresh : ∀ q ∈ s.predictions, q.id ≠ p.id) :
    win_rate { s with
        predictions := s.predictions ++ [p],
        outcomes := s.outcomes ++ [o] } agent_name cutoff =
      win_rate s agent_name cutoff ∧
    ((agent_win_rows s agent_name cutoff).length = 0 →
      win_rate s agent_name cutoff = 0) ∧
    (0 < (agent_win_rows s agent_name cutoff).length →
      win_rate s agent_name cutoff =
        (((agent_win_rows s agent_name cutoff).filter winCase).length : ℚ) /
          ((agent_win_rows s agent_name cutoff).length : ℚ)) := by
  refine ⟨?_, ?_, ?_⟩
  · unfold win_rate
    rw [agent_win_rows_append s agent_name cutoff p o ho he hfresh]
  · intro h
    unfold win_rate
    rw [if_neg (by omega)]
  · intro h
    unfold win_rate
    rw [if_pos h]

/-- Prediction row with nonpositive edge used by the C6 witness. -/
def predP2 : PredictionRow :=
  { id := "p2", ticker := "T1", agent_name := "alice", probability := 2/5,
    confidence := 1/2, market_price := 1/2, edge := -(1/10),
    category := none, subcategory := none,
    timestamp := "2024-01-02T00:00:00" }

/-- Outcome row resolving predP2, used by the C6 witness. -/
def outO3 : OutcomeRow :=
  { id := "o3", ticker := "T1", prediction_id := "p2", actual_outcome := 0,
    predicted_probability := 2/5, brier_score := 4/25,
    resolved_at := "2024-01-03T00:00:00" }

/-- Witness for C6 at a concrete store. -/
theorem win_rate_ignores_nonpositive_edge_witness :
    win_rate { dbResolvedOnce with
        predictions := dbResolvedOnce.predictions ++ [predP2],
        outcomes := dbResolvedOnce.outcomes ++ [outO3] } "alice" "" =
      win_rate dbResolvedOnce "alice" "" :=
  (win_rate_ignores_nonpositive_edge dbResolvedOnce "alice" "" predP2 outO3
    rfl (by norm_num [predP2]) (by decide)).1

/-- Helper: the code bucket index coincides with spec bin membership on
probabilities in the unit interval. -/
theorem bucketIdx_eq_iff (prob : ℚ) (idx : ℕ)
    (h0 : 0 ≤ prob) (h1 : prob ≤ 1) (_hidx : idx < 10) :
    bucketIdx prob = (idx : ℤ) ↔
      (if idx = 9 then (9:ℚ)/10 ≤ prob ∧ prob ≤ 1
       else (idx : ℚ)/10 ≤ prob ∧ prob < ((idx : ℚ) + 1)/10) := by
  have hq : (0:ℚ) ≤ prob * 10 := by positivity
  unfold bucketIdx pyTrunc
  rw [if_pos hq]
  by_cases h9 : idx = 9
  · subst h9
    rw [if_pos rfl]
    constructor
    · intro h
      refine ⟨?_, h1⟩
      have h2 : (9:ℤ) ≤ ⌊prob * 10⌋ := by
        by_contra hcon
        push_neg at hcon
        rw [min_eq_left (by omega : ⌊prob * 10⌋ ≤ 9)] at h
        omega
      have h3 : (9:ℚ) ≤ prob * 10 := by exact_mod_cast Int.le_floor.mp h2
      linarith
    · rintro ⟨ha, _⟩
      have h2 : (9:ℤ) ≤ ⌊prob * 10⌋ := Int.le_floor.mpr (by push_cast; linarith)
      exact min_eq_right h2
  · have hlt : (idx : ℤ) < 9 := by omega
    rw [if_neg h9]
    constructor
    · intro h
      have hfl : ⌊prob * 10⌋ = (idx : ℤ) := by
        rcases le_total ⌊prob * 10⌋ 9 with hle | hge
        · rw [min_eq_left hle] at h
          exact h
        · rw [min_eq_right hge] at h
          omega
      obtain ⟨hl, hu⟩ := Int.floor_eq_iff.mp hfl
      push_cast at hl hu
      constructor
      · linarith
      · linarith
    · rintro ⟨ha, hb⟩
      have hfl : ⌊prob * 10⌋ = (idx : ℤ) := by
        rw [Int.floor_eq_iff]
        constructor
        · push_cast
          linarith
        · push_cast
          linarith
      rw [hfl, min_eq_left (by omega)]

/-- Helper: boolean form of the bucket correspondence, as used inside
the list filters. -/
theorem bucketIdx_beq_eq_specBinB (prob : ℚ) (idx : ℕ)
    (h0 : 0 ≤ prob) (h1 : prob ≤ 1) (hidx : idx < 10) :
    (bucketIdx prob == (idx : ℤ)) = specBinB idx prob := by
  have h := bucketIdx_eq_iff prob idx h0 h1 hidx
  unfold specBinB
  by_cases h9 : idx = 9
  · subst h9
    rw [if_pos rfl] at h ⊢
    rw [Bool.eq_iff_iff]
    simp only [beq_iff_eq, Bool.and_eq_true, decide_eq_true_eq]
    exact h
  · rw [if_neg h9] at h ⊢
    rw [Bool.eq_iff_iff]
    simp only [beq_iff_eq, Bool.and_eq_true, decide_eq_true_eq]
    exact h

/-- Helper: on in-range rows the code bucketing filter equals the spec
bin filter. -/
theorem bucketRows_eq_spec (rows : List (ℚ × ℤ))
    (hp : ∀ r ∈ rows, 0 ≤ r.1 ∧ r.1 ≤ 1) (idx : ℕ) (hidx : idx < 10) :
    bucketRows rows idx = rows.filter (fun r => specBinB idx r.1) := by
  unfold bucketRows
  exact List.filter_congr (fun r hr =>
    bucketIdx_beq_eq_specBinB r.1 idx (hp r hr).1 (hp r hr).2 hidx)

/-- Helper: the full bucketing loop agrees with the spec bucketing on
in-range rows. -/
theorem calibration_buckets_eq_spec (rows : List (ℚ × ℤ))
    (hp : ∀ r ∈ rows, 0 ≤ r.1 ∧ r.1 ≤ 1) :
    calibration_buckets rows = calibration_buckets_spec rows := by
  unfold calibration_buckets calibration_buckets_spec
  apply List.filterMap_congr
  intro idx hidx
  rw [bucketRows_eq_spec rows hp idx (List.mem_range.mp hidx)]

/-- Helper: every selected calibration row carries the probability of a
stored prediction. -/
theorem calibration_rows_prob_bounds (s : DBState)
    (agent_name category : Option String) (cutoff : String)
    (hprob : ∀ p ∈ s.predictions, 0 ≤ p.probability ∧ p.probability ≤ 1) :
    ∀ r ∈ calibration_rows s agent_name category cutoff,
      0 ≤ r.1 ∧ r.1 ≤ 1 := by
  intro r hr
  unfold calibration_rows at hr
  rcases List.mem_map.mp hr with ⟨pr, hpr, rfl⟩
  have hj := (List.mem_filter.mp hpr).1
  unfold joinedRows at hj
  rcases List.mem_flatMap.mp hj with ⟨q, hq, hqr⟩
  rcases List.mem_map.mp hqr with ⟨o2, _, rfl⟩
  exact hprob q hq

/-- C7: calibration_report partitions the selected rows into the ten
equal-width probability bins with probability 1 clamped into the last
bin, each emitted bucket is populated and carries the absolute
calibration error of its empirical rate against its mean prediction
with width one tenth, empty buckets are omitted, and an empty store
yields the empty report. -/
theorem calibration_report_correct (s : DBState)
    (agent_name category : Option String) (cutoff : String)
    (hprob : ∀ p ∈ s.predictions, 0 ≤ p.probability ∧ p.probability ≤ 1) :
    calibration_report s agent_name category cutoff =
      calibration_buckets_spec
        (calibration_rows s agent_name category cutoff) ∧
    (∀ b ∈ calibration_report s agent_name category cutoff,
      0 < b.prediction_count ∧
      b.calibration_error = |b.actual_rate - b.avg_predicted| ∧
      b.range_high = b.range_low + 1/10) ∧
    calibration_report emptyDB agent_name category cutoff = [] := by
  refine ⟨?_, ?_, ?_⟩
  · unfold calibration_report
    exact calibration_buckets_eq_spec _
      (calibration_rows_prob_bounds s agent_name category cutoff hprob)
  · intro b hb
    unfold calibration_report calibration_buckets at hb
    rcases List.mem_filterMap.mp hb with ⟨idx, hidx, heq⟩
    by_cases hnil :
        bucketRows (calibration_rows s agent_name category cutoff) idx = []
    · rw [if_pos hnil] at heq
      exact Option.noConfusion heq
    · rw [if_neg hnil] at heq
      have hbk := Option.some_inj.mp heq
      subst hbk
      refine ⟨?_, rfl, ?_⟩
      · exact List.length_pos.mpr hnil
      · show ((idx : ℚ) + 1)/10 = (idx : ℚ)/10 + 1/10
        ring
  · rfl

/-- Witness for C7 at a concrete store. -/
theorem calibration_report_correct_witness :
    calibration_report dbResolvedOnce none none "" =
      calibration_buckets_spec (calibration_rows dbResolvedOnce none none "") :=
  (calibration_report_correct dbResolvedOnce none none "" (by
    intro p hp
    simp only [dbResolvedOnce, List.mem_singleton] at hp
    subst hp
    norm_num [predP1])).1

end Maverick
